import Mathlib

/-!
Shallow embedding of the recipe validation pipeline
(`src/utils/recipe_schema.py`, `src/validators/rule_validator.py`,
`src/transformers/list_normalizer.py`, `src/utils/lookups_loader.py`,
`src/pipeline/run_pipeline.py`) together with theorems settling the
claims about it.

Modelling conventions:
- Python `int` becomes `Int`; Python `float` (the `qty` field, never
  inspected by any validator) becomes `Rat`; `Optional[T]` becomes
  `Option T`.
- Python `str.strip()` becomes `pystrip` below (drop leading and
  trailing whitespace characters).
- The lookup snapshot (the structure returned by `load_snapshot`,
  mapping sheet name to a list of row mappings) is modelled as an
  association list; `dict.get` with a default becomes association-list
  lookup with the same default.
- `run_pipeline`'s `raise ValueError(...)` becomes `Except.error`
  carrying a `PipelineError` that records the failing stage and its
  error list (the Python message embeds the same data in a formatted
  string); the call to the external writer `write_recipes_to_template`
  becomes `Except.ok` carrying the exact recipe list handed over.
-/

/-- Python `str.strip()`: the string with leading and trailing whitespace
characters removed. -/
def pystrip (s : String) : String :=
  String.mk (((s.data.dropWhile Char.isWhitespace).reverse.dropWhile Char.isWhitespace).reverse)

/-- Constant `LANGUAGE_ES` from `recipe_schema.py`. -/
def LANGUAGE_ES : String := "ES"

/-- Constant `RECIPE_TYPE_ROBOT_COOKER` from `recipe_schema.py`. -/
def RECIPE_TYPE_ROBOT_COOKER : String := "汤机(Robot Cooker)"

/-- Dataclass `RecipeMeta` from `recipe_schema.py`. -/
structure RecipeMeta where
  recipe_no : Int
  language : String
  recipe_type : String
  name : String
  servings : Int
deriving DecidableEq

/-- Dataclass `Ingredient` from `recipe_schema.py`. -/
structure Ingredient where
  no : Int
  qty : Rat
  unit : String
  name : String
deriving DecidableEq

/-- Dataclass `Step` from `recipe_schema.py`. -/
structure Step where
  no : Int
  mode : String
  description : Option String := none
  temperature : Option Int := none
  speed : Option Int := none
  direction : Option String := none
  minutes : Option Int := none
  seconds : Option Int := none
deriving DecidableEq

/-- Dataclass `Recipe` from `recipe_schema.py`. -/
structure Recipe where
  meta : RecipeMeta
  ingredients : List Ingredient
  steps : List Step
deriving DecidableEq

/-- Function `validate_recipe` from `recipe_schema.py`: the accumulated
list of schema error messages, in source order. -/
def validate_recipe (recipe : Recipe) : List String :=
  (if recipe.meta.language ≠ LANGUAGE_ES then
    ["language must be " ++ LANGUAGE_ES] else [])
  ++ (if recipe.meta.recipe_type ≠ RECIPE_TYPE_ROBOT_COOKER then
    ["recipe_type must be " ++ RECIPE_TYPE_ROBOT_COOKER] else [])
  ++ (if recipe.meta.recipe_no ≤ 0 then
    ["recipe_no must be positive"] else [])
  ++ (if recipe.meta.servings ≤ 0 then
    ["servings must be positive"] else [])
  ++ (if pystrip recipe.meta.name = "" then
    ["name must be non-empty"] else [])
  ++ (if recipe.ingredients = [] then
    ["ingredients cannot be empty"] else [])
  ++ (if recipe.steps = [] then
    ["steps cannot be empty"] else [])

/-- The all-invalid recipe of the negative scenario: meta
{recipe_no=0, language="EN", recipe_type="", name=" ", servings=0},
empty ingredients, empty steps. -/
def negativeScenarioRecipe : Recipe :=
  { meta :=
      { recipe_no := 0
        language := "EN"
        recipe_type := ""
        name := " "
        servings := 0 }
    ingredients := []
    steps := [] }

/-- Constant `MODE_DESCRIPTION` from `rule_validator.py`. -/
def MODE_DESCRIPTION : String := "描述(Description)"

/-- Constant `MODE_WEIGH` from `rule_validator.py`. -/
def MODE_WEIGH : String := "称重(Weigh)"

/-- Constant `MODE_ADAPTED` from `rule_validator.py`. -/
def MODE_ADAPTED : String := "自适应烹饪(Adapted Cooking)"

/-- Dataclass `RuleError` from `rule_validator.py`. -/
structure RuleError where
  message : String
deriving DecidableEq

/-- Function `_has_controls` from `rule_validator.py`: some of the five
control fields {temperature, speed, direction, minutes, seconds} is
non-null. -/
def _has_controls (step : Step) : Bool :=
  step.temperature.isSome || step.speed.isSome || step.direction.isSome ||
    step.minutes.isSome || step.seconds.isSome

/-- Python truthiness of `not step.description or not step.description.strip()`
in the description/weigh branch of `validate_steps`: description absent,
empty, or all-whitespace. -/
def descriptionBlank (d : Option String) : Bool :=
  match d with
  | none => true
  | some s => s == "" || pystrip s == ""

/-- Python truthiness of `step.description and step.description.strip()`
in the adapted-cooking branch of `validate_steps`: description present with
non-whitespace content. -/
def descriptionPresent (d : Option String) : Bool :=
  match d with
  | none => false
  | some s => s != "" && pystrip s != ""

/-- Function `validate_steps` from `rule_validator.py`: the per-step rule
errors accumulated over the list, in source order. -/
def validate_steps : List Step → List RuleError
  | [] => []
  | step :: rest =>
    (if step.mode = MODE_DESCRIPTION ∨ step.mode = MODE_WEIGH then
      (if descriptionBlank step.description then
        [RuleError.mk ("step " ++ toString step.no ++ ": description required for " ++ step.mode)]
       else [])
      ++ (if _has_controls step then
        [RuleError.mk ("step " ++ toString step.no ++ ": controls must be empty for " ++ step.mode)]
       else [])
     else if step.mode = MODE_ADAPTED then
      (if descriptionPresent step.description then
        [RuleError.mk ("step " ++ toString step.no ++ ": description should be empty for " ++ step.mode)]
       else [])
      ++ (if step.minutes = none ∧ step.seconds = none then
        [RuleError.mk ("step " ++ toString step.no ++ ": time required for " ++ step.mode)]
       else [])
      ++ (if step.speed = none then
        [RuleError.mk ("step " ++ toString step.no ++ ": speed required for " ++ step.mode)]
       else [])
     else
      [RuleError.mk ("step " ++ toString step.no ++ ": unsupported working mode " ++ step.mode)])
    ++ validate_steps rest

/-- C2: `validate_recipe` accumulates every violation without
short-circuiting; on the negative-scenario recipe it returns exactly the
seven distinct errors (language, recipe_type, recipe_no, servings, name,
ingredients-empty, steps-empty), in that order. -/
theorem validate_recipe_negative_scenario :
    validate_recipe negativeScenarioRecipe =
      ["language must be ES",
       "recipe_type must be 汤机(Robot Cooker)",
       "recipe_no must be positive",
       "servings must be positive",
       "name must be non-empty",
       "ingredients cannot be empty",
       "steps cannot be empty"] ∧
    (validate_recipe negativeScenarioRecipe).Nodup ∧
    (validate_recipe negativeScenarioRecipe).length = 7 := by
  refine ⟨by decide, by decide, by decide⟩

/-- Helper: `descriptionPresent` is the Boolean negation of
`descriptionBlank` (in Python, `x and x.strip()` is the negation of
`not x or not x.strip()`). -/
theorem descriptionPresent_eq_not_blank (d : Option String) :
    descriptionPresent d = !descriptionBlank d := by
  cases d with
  | none => rfl
  | some s => simp [descriptionPresent, descriptionBlank, Bool.not_or, bne]

/-- Helper: `validate_steps` distributes over list append, because the
loop accumulates per-step errors in order. -/
theorem validate_steps_append (l1 l2 : List Step) :
    validate_steps (l1 ++ l2) = validate_steps l1 ++ validate_steps l2 := by
  induction l1 with
  | nil => simp [validate_steps]
  | cons s rest ih => simp [validate_steps, ih]

/-- C3: for a step in description or weigh mode with absent or blank
description, `validate_steps` on that singleton yields exactly one
"description required" error, followed by exactly one combined
"controls must be empty" error when some control field is set (and no
further error), never one error per populated control field. -/
theorem validate_steps_description_weigh_blank (s : Step)
    (hm : s.mode = MODE_DESCRIPTION ∨ s.mode = MODE_WEIGH)
    (hd : descriptionBlank s.description = true) :
    validate_steps [s] =
      RuleError.mk ("step " ++ toString s.no ++ ": description required for " ++ s.mode)
      :: (if _has_controls s then
        [RuleError.mk ("step " ++ toString s.no ++ ": controls must be empty for " ++ s.mode)]
       else []) := by
  unfold validate_steps
  rw [if_pos hm, if_pos hd]
  simp [validate_steps]

/-- Concrete instance for C3: a description-mode step with blank
description and two populated control fields produces the description
error and one single combined controls error. -/
def c3Step : Step :=
  { no := 1, mode := MODE_DESCRIPTION, temperature := some 100, minutes := some 5 }

/-- Witness for C3 at `c3Step`. -/
theorem validate_steps_description_weigh_blank_witness :
    validate_steps [c3Step] =
      [RuleError.mk "step 1: description required for 描述(Description)",
       RuleError.mk "step 1: controls must be empty for 描述(Description)"] := by
  rw [validate_steps_description_weigh_blank c3Step (Or.inl rfl) (by decide)]
  decide

/-- C4: for an adapted-cooking step with absent or blank description,
speed set, and at least one of minutes/seconds set, `validate_steps`
returns no errors; temperature and direction are quantified over freely,
hence never checked in this mode. -/
theorem validate_steps_adapted_ok (s : Step)
    (hm : s.mode = MODE_ADAPTED)
    (hd : descriptionBlank s.description = true)
    (hs : s.speed ≠ none)
    (ht : s.minutes ≠ none ∨ s.seconds ≠ none) :
    validate_steps [s] = [] := by
  have hp : descriptionPresent s.description = false := by
    rw [descriptionPresent_eq_not_blank, hd]; rfl
  rcases ht with h | h <;>
    simp [validate_steps, hm, hp, hs, h, MODE_ADAPTED, MODE_DESCRIPTION, MODE_WEIGH]

/-- Concrete instance for C4: an adapted-cooking step with temperature
and direction both populated still passes. -/
def c4Step : Step :=
  { no := 2, mode := MODE_ADAPTED, temperature := some 120, speed := some 2,
    direction := some "left", minutes := some 5 }

/-- Witness for C4 at `c4Step`. -/
theorem validate_steps_adapted_ok_witness :
    validate_steps [c4Step] = [] :=
  validate_steps_adapted_ok c4Step rfl (by decide) (by decide) (Or.inl (by decide))

/-- C9: a step whose mode is outside the three known labels contributes
exactly one "unsupported working mode" error, at its position,
independently of the surrounding steps. -/
theorem validate_steps_unsupported_mode (pre post : List Step) (s : Step)
    (h1 : s.mode ≠ MODE_DESCRIPTION) (h2 : s.mode ≠ MODE_WEIGH)
    (h3 : s.mode ≠ MODE_ADAPTED) :
    validate_steps (pre ++ s :: post) =
      validate_steps pre
      ++ RuleError.mk ("step " ++ toString s.no ++ ": unsupported working mode " ++ s.mode)
      :: validate_steps post := by
  rw [validate_steps_append]
  simp [validate_steps, h1, h2, h3]

/-- Concrete instance for C9: an unknown mode between two valid steps. -/
def c9Bad : Step := { no := 2, mode := "mixing" }

/-- Concrete valid neighbour steps for the C9 witness. -/
def c9Good1 : Step := { no := 1, mode := MODE_DESCRIPTION, description := some "chop" }

/-- Concrete valid neighbour step after the bad one for the C9 witness. -/
def c9Good2 : Step := { no := 3, mode := MODE_WEIGH, description := some "weigh flour" }

/-- Witness for C9 at a three-step list with the unknown mode in the
middle. -/
theorem validate_steps_unsupported_mode_witness :
    validate_steps [c9Good1, c9Bad, c9Good2] =
      validate_steps [c9Good1]
      ++ RuleError.mk "step 2: unsupported working mode mixing"
      :: validate_steps [c9Good2] := by
  have h := validate_steps_unsupported_mode [c9Good1] [c9Good2] c9Bad
    (by decide) (by decide) (by decide)
  simpa using h

/-- Row of a snapshot sheet (`lookups_loader.py`): a mapping from column
header to optional cell value, modelled as an association list. -/
abbrev Row := List (String × Option String)

/-- Snapshot content as returned by `load_snapshot`: a mapping from sheet
name to its list of rows, modelled as an association list. -/
abbrev Snapshot := List (String × List Row)

/-- Python `row.get(header)` on a row mapping: the stored value when the
header is present (which may itself be null), `none` otherwise. -/
def rowGet (row : Row) (header : String) : Option String :=
  match row.lookup header with
  | some v => v
  | none => none

/-- Python `sheets.get(name, [])` in `load_lookups`: the rows of the named
sheet, or no rows when the sheet is absent from the snapshot. -/
def sheetRows (sheets : Snapshot) (name : String) : List Row :=
  match sheets.lookup name with
  | some rows => rows
  | none => []

/-- Function `_strip_empty` from `lookups_loader.py`: keep the stripped
form of every value that is non-null, non-empty, and not all-whitespace. -/
def _strip_empty (values : List (Option String)) : List String :=
  values.filterMap (fun value =>
    match value with
    | none => none
    | some s => if s != "" && pystrip s != "" then some (pystrip s) else none)

/-- Function `_extract_column` from `lookups_loader.py`. -/
def _extract_column (rows : List Row) (header : String) : List String :=
  _strip_empty (rows.map (fun row => rowGet row header))

/-- Lexicographic comparison of character lists by code point, the order
Python uses to sort strings. Kept as an executable Boolean function so
concrete sorts evaluate inside proofs. -/
def listCharLeb : List Char → List Char → Bool
  | [], _ => true
  | _ :: _, [] => false
  | c :: cs, d :: ds => if c < d then true else if d < c then false else listCharLeb cs ds

/-- Lexicographic string comparison by code point (Python `a <= b`). -/
def strLeb (a b : String) : Bool := listCharLeb a.data b.data

/-- Function `_unique_sorted` from `lookups_loader.py`: Python
`sorted(set(values))`, i.e. deduplicate, then sort lexicographically. -/
def _unique_sorted (values : List String) : List String :=
  List.insertionSort (fun a b => strLeb a b = true) values.dedup

/-- Helper: `listCharLeb` agrees with the negation of the reversed
lexicographic strict order. -/
theorem listCharLeb_eq_true_iff (cs ds : List Char) :
    listCharLeb cs ds = true ↔ ¬ List.Lex (· < ·) ds cs := by
  induction cs generalizing ds with
  | nil =>
    exact iff_of_true rfl (List.Lex.not_nil_right _ _)
  | cons c cs ih =>
    cases ds with
    | nil =>
      exact iff_of_false (by simp [listCharLeb]) (fun hn => hn List.Lex.nil)
    | cons d ds =>
      simp only [listCharLeb]
      rcases lt_trichotomy c d with h | h | h
      · rw [if_pos h]
        refine iff_of_true rfl ?_
        intro hlex
        cases hlex with
        | rel hr => exact lt_asymm h hr
        | cons ht => exact lt_irrefl _ h
      · subst h
        rw [if_neg (lt_irrefl c), if_neg (lt_irrefl c), ih ds]
        constructor
        · intro hn hlex
          cases hlex with
          | rel hr => exact lt_irrefl _ hr
          | cons ht => exact hn ht
        · intro hn hlex
          exact hn (List.Lex.cons hlex)
      · rw [if_neg (asymm h), if_pos h]
        exact iff_of_false (by simp) (fun hn => hn (List.Lex.rel h))

/-- Helper: `strLeb` decides the standard string order. -/
theorem strLeb_iff_le (a b : String) : strLeb a b = true ↔ a ≤ b := by
  rw [String.le_iff_toList_le, ← not_lt]
  exact listCharLeb_eq_true_iff a.data b.data

instance : IsTotal String (fun a b => strLeb a b = true) :=
  ⟨fun a b => by
    rw [strLeb_iff_le a b, strLeb_iff_le b a]
    exact le_total a b⟩

instance : IsTrans String (fun a b => strLeb a b = true) :=
  ⟨fun a b c hab hbc => by
    rw [strLeb_iff_le] at hab hbc ⊢
    exact le_trans hab hbc⟩

/-- Dataclass `LookupTables` from `lookups_loader.py`. -/
structure LookupTables where
  units : List String
  accessories : List String
  working_modes : List String
  categories : List String
  labels : List String
deriving DecidableEq

/-- Sheet name for units in `load_lookups`. -/
def SHEET_UNITS : String := "食材单位列表Unit For Ingredients"

/-- Column header for units in `load_lookups`. -/
def HEADER_UNITS : String := "*单位名称\nUnit Name"

/-- Sheet name for accessories in `load_lookups`. -/
def SHEET_ACCESSORIES : String := "配件列表Accessories List"

/-- Column header for accessories in `load_lookups`. -/
def HEADER_ACCESSORIES : String := "*配件名称\nAccessory Name"

/-- Sheet name for working modes in `load_lookups`. -/
def SHEET_WORKING_MODES : String := "自动程序Working Mode List"

/-- Column header for working modes in `load_lookups`. -/
def HEADER_WORKING_MODES : String := "模式名称\nName of Working mode"

/-- Sheet name for categories in `load_lookups`. -/
def SHEET_CATEGORIES : String := "分类列表Category List"

/-- Column header for categories in `load_lookups`. -/
def HEADER_CATEGORIES : String := "*分类名称\nCategory Name"

/-- Sheet name for labels in `load_lookups`. -/
def SHEET_LABELS : String := "标签列表Label List"

/-- Column header for labels in `load_lookups`. -/
def HEADER_LABELS : String := "*标签名称\nLabel Name"

/-- Function `load_lookups` from `lookups_loader.py`, applied to the
already-parsed snapshot content (file reading and JSON parsing are out of
scope; `load_snapshot` yields this sheet-to-rows mapping). -/
def load_lookups (sheets : Snapshot) : LookupTables :=
  { units := _unique_sorted (_extract_column (sheetRows sheets SHEET_UNITS) HEADER_UNITS)
    accessories := _unique_sorted
      (_extract_column (sheetRows sheets SHEET_ACCESSORIES) HEADER_ACCESSORIES)
    working_modes := _unique_sorted
      (_extract_column (sheetRows sheets SHEET_WORKING_MODES) HEADER_WORKING_MODES)
    categories := _unique_sorted
      (_extract_column (sheetRows sheets SHEET_CATEGORIES) HEADER_CATEGORIES)
    labels := _unique_sorted (_extract_column (sheetRows sheets SHEET_LABELS) HEADER_LABELS) }

/-- Specification of one lookup list (C7): duplicate-free, sorted
lexicographically, containing exactly the stripped non-blank values of its
sheet/column, and empty whenever the column is absent from every row of
the sheet (in particular whenever the sheet itself is absent, since then
there are no rows). -/
def lookupListOk (field : List String) (rows : List Row) (header : String) : Prop :=
  field.Nodup ∧
  List.Sorted (fun a b : String => a ≤ b) field ∧
  (∀ x, x ∈ field ↔ x ∈ _extract_column rows header) ∧
  ((∀ row ∈ rows, rowGet row header = none) → field = [])

/-- Helper: `_unique_sorted` output has no duplicates. -/
theorem _unique_sorted_nodup (l : List String) : (_unique_sorted l).Nodup :=
  (List.perm_insertionSort _ _).symm.nodup (List.nodup_dedup l)

/-- Helper: `_unique_sorted` output is sorted by the lexicographic
order on strings. -/
theorem _unique_sorted_sorted (l : List String) :
    List.Sorted (fun a b : String => a ≤ b) (_unique_sorted l) := by
  have h := List.sorted_insertionSort (fun a b : String => strLeb a b = true) l.dedup
  exact h.imp (fun hab => (strLeb_iff_le _ _).mp hab)

/-- Helper: `_unique_sorted` preserves membership. -/
theorem _unique_sorted_mem (l : List String) (x : String) :
    x ∈ _unique_sorted l ↔ x ∈ l := by
  unfold _unique_sorted
  rw [(List.perm_insertionSort _ _).mem_iff, List.mem_dedup]

/-- Helper: a column absent from every row extracts to the empty list. -/
theorem _extract_column_of_none (rows : List Row) (header : String)
    (h : ∀ row ∈ rows, rowGet row header = none) :
    _extract_column rows header = [] := by
  induction rows with
  | nil => rfl
  | cons row rest ih =>
    have h1 := h row (by simp)
    have h2 : ∀ r ∈ rest, rowGet r header = none := fun r hr => h r (by simp [hr])
    simp [_extract_column, _strip_empty, h1] at ih ⊢
    exact ih h2

/-- Helper: `_unique_sorted` of an extracted column satisfies the
per-list specification. -/
theorem lookupListOk_unique_sorted (rows : List Row) (header : String) :
    lookupListOk (_unique_sorted (_extract_column rows header)) rows header := by
  refine ⟨_unique_sorted_nodup _, _unique_sorted_sorted _,
    fun x => _unique_sorted_mem _ x, fun h => ?_⟩
  rw [_extract_column_of_none rows header h]
  rfl

/-- C7: every one of the five lists built by `load_lookups` is
duplicate-free, sorted lexicographically, contains exactly the stripped
non-blank values of its designated sheet/column, and degrades to the
empty list when its sheet or column is absent from the snapshot. -/
theorem load_lookups_lists_ok (sheets : Snapshot) :
    lookupListOk (load_lookups sheets).units (sheetRows sheets SHEET_UNITS) HEADER_UNITS ∧
    lookupListOk (load_lookups sheets).accessories
      (sheetRows sheets SHEET_ACCESSORIES) HEADER_ACCESSORIES ∧
    lookupListOk (load_lookups sheets).working_modes
      (sheetRows sheets SHEET_WORKING_MODES) HEADER_WORKING_MODES ∧
    lookupListOk (load_lookups sheets).categories
      (sheetRows sheets SHEET_CATEGORIES) HEADER_CATEGORIES ∧
    lookupListOk (load_lookups sheets).labels (sheetRows sheets SHEET_LABELS) HEADER_LABELS :=
  ⟨lookupListOk_unique_sorted _ _, lookupListOk_unique_sorted _ _,
   lookupListOk_unique_sorted _ _, lookupListOk_unique_sorted _ _,
   lookupListOk_unique_sorted _ _⟩

/-- C8: `load_lookups` is deterministic in its input: equal snapshot
contents yield LookupTables equal field by field (same elements, same
order). -/
theorem load_lookups_deterministic (s1 s2 : Snapshot) (h : s1 = s2) :
    (load_lookups s1).units = (load_lookups s2).units ∧
    (load_lookups s1).accessories = (load_lookups s2).accessories ∧
    (load_lookups s1).working_modes = (load_lookups s2).working_modes ∧
    (load_lookups s1).categories = (load_lookups s2).categories ∧
    (load_lookups s1).labels = (load_lookups s2).labels := by
  subst h
  exact ⟨rfl, rfl, rfl, rfl, rfl⟩

/-- Concrete snapshot for the C8 witness: a units sheet with duplicate,
padded, blank, and missing cell values. -/
def demoSnapshot : Snapshot :=
  [(SHEET_UNITS,
    [[(HEADER_UNITS, some " g ")],
     [(HEADER_UNITS, some "kg")],
     [(HEADER_UNITS, some "g")],
     [(HEADER_UNITS, some "  ")],
     [(HEADER_UNITS, none)]])]

/-- Witness for C8 at `demoSnapshot`. -/
theorem load_lookups_deterministic_witness :
    (load_lookups demoSnapshot).units = (load_lookups demoSnapshot).units ∧
    (load_lookups demoSnapshot).accessories = (load_lookups demoSnapshot).accessories ∧
    (load_lookups demoSnapshot).working_modes = (load_lookups demoSnapshot).working_modes ∧
    (load_lookups demoSnapshot).categories = (load_lookups demoSnapshot).categories ∧
    (load_lookups demoSnapshot).labels = (load_lookups demoSnapshot).labels :=
  load_lookups_deterministic demoSnapshot demoSnapshot rfl

/-- Constant `ALLOWED_MODES` from `list_normalizer.py`: the fixed closed
set of the three supported working-mode labels. -/
def ALLOWED_MODES : List String :=
  ["描述(Description)", "称重(Weigh)", "自适应烹饪(Adapted Cooking)"]

/-- Dataclass `NormalizationError` from `list_normalizer.py`. -/
structure NormalizationError where
  message : String
deriving DecidableEq

/-- Function `_validate_membership` from `list_normalizer.py`: one error
naming the value when it is not in the allowed list, nothing otherwise.
Membership is exact string equality. -/
def _validate_membership (value : String) (allowed : List String)
    (field : String) : List NormalizationError :=
  if value ∉ allowed then
    [NormalizationError.mk (field ++ " value '" ++ value ++ "' is not in lookup list")]
  else []

/-- Function `normalize_ingredients` from `list_normalizer.py`: the loop
accumulating unit-membership errors in order. -/
def normalize_ingredients : List Ingredient → LookupTables → List NormalizationError
  | [], _ => []
  | ingredient :: rest, lookups =>
    _validate_membership ingredient.unit lookups.units "unit"
    ++ normalize_ingredients rest lookups

/-- The `allowed_modes` local of `normalize_steps`: the intersection
`set(lookups.working_modes) & ALLOWED_MODES`, as the sublist of
`working_modes` whose members are allowed (only membership in this value
is ever used). -/
def allowed_modes (lookups : LookupTables) : List String :=
  lookups.working_modes.filter (fun m => decide (m ∈ ALLOWED_MODES))

/-- Function `normalize_steps` from `list_normalizer.py`: the loop
accumulating working-mode membership errors in order, against the
intersection of the working-mode lookup list with `ALLOWED_MODES`. -/
def normalize_steps : List Step → LookupTables → List NormalizationError
  | [], _ => []
  | step :: rest, lookups =>
    _validate_membership step.mode (allowed_modes lookups) "working_mode"
    ++ normalize_steps rest lookups

/-- Function `normalize_accessories` from `list_normalizer.py`. -/
def normalize_accessories : List String → LookupTables → List NormalizationError
  | [], _ => []
  | accessory :: rest, lookups =>
    _validate_membership accessory lookups.accessories "accessory"
    ++ normalize_accessories rest lookups

/-- Function `normalize_recipe` from `list_normalizer.py`: ingredient
errors, then step errors, then accessory errors. -/
def normalize_recipe (recipe : Recipe) (lookups : LookupTables)
    (accessories : List String) : List NormalizationError :=
  normalize_ingredients recipe.ingredients lookups
  ++ normalize_steps recipe.steps lookups
  ++ normalize_accessories accessories lookups

/-- Helper: membership in `allowed_modes` is membership in the
intersection. -/
theorem mem_allowed_modes (lookups : LookupTables) (m : String) :
    m ∈ allowed_modes lookups ↔ m ∈ lookups.working_modes ∧ m ∈ ALLOWED_MODES := by
  simp [allowed_modes, List.mem_filter]

/-- Helper: closed form of `normalize_ingredients` — one error naming the
unit for exactly the ingredients whose unit is outside `lookups.units`. -/
theorem normalize_ingredients_eq (ingredients : List Ingredient) (lookups : LookupTables) :
    normalize_ingredients ingredients lookups =
      (ingredients.filter (fun i => decide (i.unit ∉ lookups.units))).map
        (fun i => NormalizationError.mk ("unit value '" ++ i.unit ++ "' is not in lookup list")) := by
  induction ingredients with
  | nil => rfl
  | cons i rest ih =>
    by_cases h : i.unit ∈ lookups.units <;>
      simp [normalize_ingredients, _validate_membership, h, ih]

/-- Helper: closed form of `normalize_steps` — one error naming the mode
for exactly the steps whose mode is outside the intersection of
`lookups.working_modes` with `ALLOWED_MODES`. -/
theorem normalize_steps_eq (steps : List Step) (lookups : LookupTables) :
    normalize_steps steps lookups =
      (steps.filter
        (fun s => decide (¬ (s.mode ∈ lookups.working_modes ∧ s.mode ∈ ALLOWED_MODES)))).map
        (fun s => NormalizationError.mk
          ("working_mode value '" ++ s.mode ++ "' is not in lookup list")) := by
  induction steps with
  | nil => rfl
  | cons s rest ih =>
    by_cases h : s.mode ∈ lookups.working_modes ∧ s.mode ∈ ALLOWED_MODES
    · have hm : s.mode ∈ allowed_modes lookups := (mem_allowed_modes lookups s.mode).mpr h
      simp [normalize_steps, _validate_membership, hm, h.1, h.2, ih]
    · have hm : s.mode ∉ allowed_modes lookups := fun hmem =>
        h ((mem_allowed_modes lookups s.mode).mp hmem)
      rcases not_and_or.mp h with h' | h' <;>
        simp [normalize_steps, _validate_membership, hm, h', ih]

/-- Helper: closed form of `normalize_accessories`. -/
theorem normalize_accessories_eq (accessories : List String) (lookups : LookupTables) :
    normalize_accessories accessories lookups =
      (accessories.filter (fun a => decide (a ∉ lookups.accessories))).map
        (fun a => NormalizationError.mk
          ("accessory value '" ++ a ++ "' is not in lookup list")) := by
  induction accessories with
  | nil => rfl
  | cons a rest ih =>
    by_cases h : a ∈ lookups.accessories <;>
      simp [normalize_accessories, _validate_membership, h, ih]

/-- C5: `normalize_recipe` returns, accumulated in order and without
short-circuiting, one error naming the offending unit for every
ingredient whose unit is not in `lookups.units`, one error naming the
mode for every step whose mode is not in the intersection of
`lookups.working_modes` with the fixed closed set `ALLOWED_MODES`, and
one error for every accessory outside `lookups.accessories`. -/
theorem normalize_recipe_characterization (recipe : Recipe) (lookups : LookupTables)
    (accessories : List String) :
    normalize_recipe recipe lookups accessories =
      (recipe.ingredients.filter (fun i => decide (i.unit ∉ lookups.units))).map
        (fun i => NormalizationError.mk ("unit value '" ++ i.unit ++ "' is not in lookup list"))
      ++ (recipe.steps.filter
        (fun s => decide (¬ (s.mode ∈ lookups.working_modes ∧ s.mode ∈ ALLOWED_MODES)))).map
        (fun s => NormalizationError.mk
          ("working_mode value '" ++ s.mode ++ "' is not in lookup list"))
      ++ (accessories.filter (fun a => decide (a ∉ lookups.accessories))).map
        (fun a => NormalizationError.mk
          ("accessory value '" ++ a ++ "' is not in lookup list")) := by
  rw [normalize_recipe, normalize_ingredients_eq, normalize_steps_eq,
    normalize_accessories_eq]

/-- C10: `normalize_recipe` reads only the units, working_modes, and
accessories lookup lists; two LookupTables agreeing on those three
fields produce the same error list for every recipe and accessories
argument, whatever their categories and labels. -/
theorem normalize_recipe_ignores_categories_labels (recipe : Recipe)
    (accessories : List String) (l1 l2 : LookupTables)
    (hu : l1.units = l2.units) (ha : l1.accessories = l2.accessories)
    (hw : l1.working_modes = l2.working_modes) :
    normalize_recipe recipe l1 accessories = normalize_recipe recipe l2 accessories := by
  rw [normalize_recipe, normalize_recipe, normalize_ingredients_eq,
    normalize_ingredients_eq, normalize_steps_eq, normalize_steps_eq,
    normalize_accessories_eq, normalize_accessories_eq, hu, ha, hw]

/-- Lookup tables for the C10 witness, first variant. -/
def c10Lookups1 : LookupTables :=
  { units := ["g"], accessories := ["whisk"], working_modes := ALLOWED_MODES,
    categories := ["soups"], labels := ["vegan"] }

/-- Lookup tables for the C10 witness, second variant: same units,
accessories, and working modes, entirely different categories and
labels. -/
def c10Lookups2 : LookupTables :=
  { units := ["g"], accessories := ["whisk"], working_modes := ALLOWED_MODES,
    categories := ["desserts", "mains"], labels := [] }

/-- Recipe for the C10 witness, with a failing unit and a failing mode. -/
def c10Recipe : Recipe :=
  { meta := { recipe_no := 1, language := "ES",
              recipe_type := "汤机(Robot Cooker)", name := "Receta", servings := 2 }
    ingredients := [{ no := 1, qty := 200, unit := "oz", name := "cebolla" }]
    steps := [{ no := 1, mode := "mixing" }] }

/-- Witness for C10 at `c10Recipe` and the two lookup variants. -/
theorem normalize_recipe_ignores_categories_labels_witness :
    normalize_recipe c10Recipe c10Lookups1 ["bowl"] =
      normalize_recipe c10Recipe c10Lookups2 ["bowl"] :=
  normalize_recipe_ignores_categories_labels c10Recipe ["bowl"]
    c10Lookups1 c10Lookups2 rfl rfl rfl

/-- The three `ValueError` variants raised in `run_pipeline`, recording
the failing stage and its error list (the Python message embeds the same
data as a formatted string prefixed by the stage name). -/
inductive PipelineError where
  | schemaErrors (errors : List String)
  | normalizationErrors (errors : List NormalizationError)
  | ruleErrors (errors : List RuleError)
deriving DecidableEq

/-- The per-recipe loop body of `run_pipeline` from `run_pipeline.py`:
schema validation, then normalization (with an empty accessories list),
then rule validation, raising at the first non-empty error list,
recipe by recipe. -/
def checkRecipes : List Recipe → LookupTables → Except PipelineError Unit
  | [], _ => Except.ok ()
  | recipe :: rest, lookups =>
    let schema_errors := validate_recipe recipe
    if schema_errors ≠ [] then
      Except.error (PipelineError.schemaErrors schema_errors)
    else
      let normalization_errors := normalize_recipe recipe lookups []
      if normalization_errors ≠ [] then
        Except.error (PipelineError.normalizationErrors normalization_errors)
      else
        let rule_errors := validate_steps recipe.steps
        if rule_errors ≠ [] then
          Except.error (PipelineError.ruleErrors rule_errors)
        else checkRecipes rest lookups

instance {ε α : Type} [DecidableEq ε] [DecidableEq α] : DecidableEq (Except ε α) :=
  fun a b =>
    match a, b with
    | Except.error e1, Except.error e2 =>
      if h : e1 = e2 then isTrue (by rw [h]) else isFalse (fun hc => h (Except.error.inj hc))
    | Except.ok v1, Except.ok v2 =>
      if h : v1 = v2 then isTrue (by rw [h]) else isFalse (fun hc => h (Except.ok.inj hc))
    | Except.error _, Except.ok _ => isFalse (fun hc => Except.noConfusion hc)
    | Except.ok _, Except.error _ => isFalse (fun hc => Except.noConfusion hc)

/-- Function `run_pipeline` from `run_pipeline.py`: load lookups, check
every recipe, and only then hand the unmodified recipe list to the
writer; `Except.ok` carries exactly the list passed to
`write_recipes_to_template`, `Except.error` the raised failure. -/
def run_pipeline (recipes : List Recipe) (sheets : Snapshot) :
    Except PipelineError (List Recipe) :=
  let lookups := load_lookups sheets
  match checkRecipes recipes lookups with
  | Except.error e => Except.error e
  | Except.ok _ => Except.ok recipes

/-- Helper: the per-recipe loop succeeds exactly when every recipe passes
all three stages with an empty error list. -/
theorem checkRecipes_ok_iff (rs : List Recipe) (lookups : LookupTables) :
    checkRecipes rs lookups = Except.ok () ↔
      ∀ r ∈ rs, validate_recipe r = [] ∧ normalize_recipe r lookups [] = [] ∧
        validate_steps r.steps = [] := by
  induction rs with
  | nil => simp [checkRecipes]
  | cons r rest ih =>
    by_cases h1 : validate_recipe r = []
    · by_cases h2 : normalize_recipe r lookups [] = []
      · by_cases h3 : validate_steps r.steps = []
        · simp [checkRecipes, h1, h2, h3, ih, List.forall_mem_cons]
        · simp [checkRecipes, h1, h2, h3, List.forall_mem_cons]
      · simp [checkRecipes, h1, h2, List.forall_mem_cons]
    · simp [checkRecipes, h1, List.forall_mem_cons]

/-- C1: `run_pipeline` delegates to the writer — with the full,
unmodified recipe list — exactly when every recipe passes schema
validation, normalization, and rule validation with zero errors; when
any recipe fails any stage, it signals an error and no ok value (hence
no write) is produced. -/
theorem run_pipeline_writes_iff (recipes : List Recipe) (sheets : Snapshot) :
    (run_pipeline recipes sheets = Except.ok recipes ↔
      ∀ r ∈ recipes, validate_recipe r = [] ∧
        normalize_recipe r (load_lookups sheets) [] = [] ∧
        validate_steps r.steps = []) ∧
    (∀ out, run_pipeline recipes sheets = Except.ok out → out = recipes) ∧
    ((¬ ∀ r ∈ recipes, validate_recipe r = [] ∧
        normalize_recipe r (load_lookups sheets) [] = [] ∧
        validate_steps r.steps = []) →
      ∃ e, run_pipeline recipes sheets = Except.error e) := by
  have key := checkRecipes_ok_iff recipes (load_lookups sheets)
  cases hc : checkRecipes recipes (load_lookups sheets) with
  | error e =>
    have hnot : ¬ ∀ r ∈ recipes, validate_recipe r = [] ∧
        normalize_recipe r (load_lookups sheets) [] = [] ∧
        validate_steps r.steps = [] := by
      intro hall
      rw [key.mpr hall] at hc
      exact Except.noConfusion hc
    simp only [run_pipeline, hc]
    exact ⟨by simp [hnot], by simp, fun _ => ⟨e, rfl⟩⟩
  | ok u =>
    cases u
    have hall := key.mp hc
    simp only [run_pipeline, hc]
    refine ⟨⟨fun _ => hall, fun _ => trivial⟩, ?_, fun hn => absurd hall hn⟩
    intro out h
    exact (Except.ok.inj h).symm

/-- A recipe that passes schema validation and whose only ingredient has
unit "g" and whose only step is a valid description step. -/
def c6Recipe1 : Recipe :=
  { meta := { recipe_no := 1, language := "ES",
              recipe_type := "汤机(Robot Cooker)", name := "Receta", servings := 2 }
    ingredients := [{ no := 1, qty := 200, unit := "g", name := "cebolla" }]
    steps := [{ no := 1, mode := "描述(Description)", description := some "Pique la cebolla." }] }

/-- A recipe with a schema error: its language is "EN". -/
def c6Recipe2 : Recipe :=
  { meta := { recipe_no := 2, language := "EN",
              recipe_type := "汤机(Robot Cooker)", name := "Otra", servings := 1 }
    ingredients := [{ no := 1, qty := 100, unit := "g", name := "zanahoria" }]
    steps := [{ no := 1, mode := "描述(Description)", description := some "Pique la zanahoria." }] }

/-- Counterexample to C6 as stated: in the batch [c6Recipe1, c6Recipe2]
over the empty snapshot, the second recipe has a schema error, yet
`run_pipeline` signals the first recipe's normalization failure, not a
schema-error failure — schema validation of later recipes does not run
before normalization of earlier ones. -/
theorem run_pipeline_schema_phase_counterexample :
    validate_recipe c6Recipe2 ≠ [] ∧
    run_pipeline [c6Recipe1, c6Recipe2] [] =
      Except.error (PipelineError.normalizationErrors
        [NormalizationError.mk "unit value 'g' is not in lookup list",
         NormalizationError.mk "working_mode value '描述(Description)' is not in lookup list"]) ∧
    (∀ es, run_pipeline [c6Recipe1, c6Recipe2] [] ≠
      Except.error (PipelineError.schemaErrors es)) := by
  refine ⟨by decide, by decide, ?_⟩
  intro es h
  rw [(by decide : run_pipeline [c6Recipe1, c6Recipe2] [] =
    Except.error (PipelineError.normalizationErrors
      [NormalizationError.mk "unit value 'g' is not in lookup list",
       NormalizationError.mk "working_mode value '描述(Description)' is not in lookup list"]))] at h
  simp at h

/-- C6 (amended): `run_pipeline` checks each recipe fully (schema, then
normalization, then rule validation) before examining the next recipe;
when every recipe before some recipe passes all three stages and that
recipe fails schema validation, the run aborts with exactly that
recipe's schema errors. -/
theorem run_pipeline_per_recipe_first_failure (pre : List Recipe) (r : Recipe)
    (rest : List Recipe) (sheets : Snapshot)
    (hpre : ∀ p ∈ pre, validate_recipe p = [] ∧
      normalize_recipe p (load_lookups sheets) [] = [] ∧ validate_steps p.steps = [])
    (hr : validate_recipe r ≠ []) :
    run_pipeline (pre ++ r :: rest) sheets =
      Except.error (PipelineError.schemaErrors (validate_recipe r)) := by
  have key : ∀ pre2 : List Recipe, (∀ p ∈ pre2, validate_recipe p = [] ∧
      normalize_recipe p (load_lookups sheets) [] = [] ∧ validate_steps p.steps = []) →
      checkRecipes (pre2 ++ r :: rest) (load_lookups sheets) =
        Except.error (PipelineError.schemaErrors (validate_recipe r)) := by
    intro pre2
    induction pre2 with
    | nil =>
      intro _
      simp [checkRecipes, hr]
    | cons p ps ih =>
      intro hpre2
      have hp := hpre2 p (by simp)
      simp only [List.cons_append]
      simp [checkRecipes, hp.1, hp.2.1, hp.2.2]
      exact ih (fun q hq => hpre2 q (by simp [hq]))
  simp [run_pipeline, key pre hpre]

/-- Snapshot for the C6 witness: provides unit "g" and all three working
modes, so `c6Recipe1` passes every stage against it. -/
def c6Snapshot : Snapshot :=
  [(SHEET_UNITS, [[(HEADER_UNITS, some "g")]]),
   (SHEET_WORKING_MODES,
    [[(HEADER_WORKING_MODES, some "描述(Description)")],
     [(HEADER_WORKING_MODES, some "称重(Weigh)")],
     [(HEADER_WORKING_MODES, some "自适应烹饪(Adapted Cooking)")]])]

/-- Witness for the amended C6: with a fully passing first recipe, the
second recipe's schema failure is reported as a schema-error failure. -/
theorem run_pipeline_per_recipe_first_failure_witness :
    run_pipeline [c6Recipe1, c6Recipe2] c6Snapshot =
      Except.error (PipelineError.schemaErrors ["language must be ES"]) := by
  have h := run_pipeline_per_recipe_first_failure [c6Recipe1] c6Recipe2 [] c6Snapshot
    (by decide) (by decide)
  rw [show ([c6Recipe1] ++ c6Recipe2 :: [] : List Recipe) = [c6Recipe1, c6Recipe2] from rfl] at h
  rw [h]
  decide
